import Mathlib

/-!
Shallow embedding of the MoveUI client-side core (route cache/reconciler,
auth-session lifecycle, geolocation fallback chain) and proofs about it.

The embedding follows the TypeScript source:
* `AppContext` (route state: `loadRoutes`, `addRoute`, `deleteRoute`,
  the routes-persistence effect),
* `AuthContext` (`initializeAuth`, `validateTokenInBackground`,
  `refreshToken`, `verifyOTP`),
* `useGeolocation` (`getCurrentLocation` with the MapTiler-then-Nominatim
  reverse-geocoding fallback chain).

Numbers that the source only compares for equality or stores verbatim
(coordinates, distances, durations) are modelled as rationals; JavaScript
truthiness of the values the source tests with `||` or `if (x)` is modelled
explicitly (empty string and zero are falsy, an empty array is truthy).
Browser local storage is modelled as a record of typed cells; each cell is
`absent` (no value under the key), `corrupt` (a non-empty stored string that
does not parse as the expected JSON shape) or `val a` (a parsable value).
Network calls are modelled by passing their outcome as an explicit argument.
-/

/-- A value read from browser local storage under one key. -/
inductive Stored (α : Type) where
  | absent
  | corrupt
  | val (a : α)
deriving DecidableEq, Repr

/-- Propositional equality on `Except` values is decidable componentwise
(used to evaluate the embedding on concrete inputs). -/
instance instDecEqExcept {ε α : Type} [DecidableEq ε] [DecidableEq α] :
    DecidableEq (Except ε α) := fun x y =>
  match x, y with
  | Except.error a, Except.error b =>
      if h : a = b then isTrue (congrArg Except.error h)
      else isFalse (fun hxy => h (Except.error.inj hxy))
  | Except.ok a, Except.ok b =>
      if h : a = b then isTrue (congrArg Except.ok h)
      else isFalse (fun hxy => h (Except.ok.inj hxy))
  | Except.error _, Except.ok _ => isFalse (fun hxy => Except.noConfusion hxy)
  | Except.ok _, Except.error _ => isFalse (fun hxy => Except.noConfusion hxy)

/-- JS truthiness of an optional string (`undefined`/`null` and the empty
string are falsy). -/
def jsTruthyStr : Option String → Bool
  | none => false
  | some s => !s.isEmpty

/-- JS `a || b` on a possibly-missing string (empty string is falsy). -/
def jsOrStr (a : Option String) (b : String) : String :=
  match a with
  | none => b
  | some s => if s.isEmpty then b else s

/-- JS `a || b` on a plain (never-undefined) string. -/
def jsOrStrV (a b : String) : String :=
  if a.isEmpty then b else a

/-- JS `a || b` on a possibly-missing number (`0` is falsy). -/
def jsOrQ (a : Option ℚ) (b : ℚ) : ℚ :=
  match a with
  | none => b
  | some q => if q = 0 then b else q

/-- JS `a || b` on a possibly-missing boolean. -/
def jsOrBool (a : Option Bool) (b : Bool) : Bool :=
  match a with
  | none => b
  | some x => x || b

/-- JS `a || b` on a possibly-missing array (an empty array is truthy). -/
def jsOrArr {α : Type} (a : Option (List α)) (b : List α) : List α :=
  match a with
  | none => b
  | some l => l

/-- Structure `LocationPoint` from `types`: `lat`, `lng`, `address`. -/
structure LocationPoint where
  lat : ℚ
  lng : ℚ
  address : String
deriving DecidableEq, Repr

/-- Structure `Route` from `types` (the client-side Route Record). The TS fields
`from` and `to` are named `from_` and `to_` (`from` is a Lean keyword);
the optional TS fields `isFavorite?`, `routeType?`, `transportMode?` are
`Option`s. -/
structure Route where
  id : String
  from_ : LocationPoint
  to_ : LocationPoint
  distance : ℚ
  duration : ℚ
  coordinates : List (ℚ × ℚ)
  timestamp : String
  isFavorite : Option Bool
  routeType : Option String
  transportMode : Option String
deriving DecidableEq, Repr

/-- Structure `User` from `types` (fields used by the contexts). -/
structure User where
  id : String
  name : String
  email : String
  isAuthenticated : Bool
  createdAt : String
  avatarUrl : Option String
deriving DecidableEq, Repr

/-- The temporary signup payload stored under `temp_signup_data`. -/
structure SignupData where
  name : String
  email : String
  password : String
deriving DecidableEq, Repr

/-- Structure `RouteResponse` returned by `routeService.calculate` (the remote save).
All fields the source guards with `||` or a truthiness test are `Option`s. -/
structure SavedRoute where
  id : Option Nat
  distance : Option ℚ
  duration : Option ℚ
  coordinates : Option (List (ℚ × ℚ))
  createdAt : Option String
  favorite : Option Bool
  routeType : Option String
  transportMode : Option String
deriving DecidableEq, Repr

/-- A remote record from `routeService.getUserRoutes` (`response.content`),
with the fields `loadRoutes` reads off it. -/
structure ServerRoute where
  id : Nat
  fromLatitude : ℚ
  fromLongitude : ℚ
  fromAddress : String
  toLatitude : ℚ
  toLongitude : ℚ
  toAddress : String
  distance : ℚ
  duration : ℚ
  coordinates : Option (List (ℚ × ℚ))
  createdAt : String
  favorite : Option Bool
  routeType : Option String
  transportMode : Option String
deriving DecidableEq, Repr

/-- The local-storage keys the core reads and writes. -/
structure Store where
  mapguide_user : Stored User
  auth_token : Option String
  refresh_token : Option String
  mapguide_user_temp : Stored User
  temp_signup_data : Stored SignupData
  mapguide_user_routes : Stored (List Route)
  mapguide_local_routes : Stored (List Route)
  current_route : Stored Route
deriving DecidableEq, Repr

/-- The `AppContext` React state that the route operations mutate. -/
structure AppState where
  routes : List Route
  currentRoute : Option Route
deriving DecidableEq, Repr

/-- Reading `JSON.parse(localStorage.getItem(mapguide_user) or empty-object)`
followed by reading `.isAuthenticated`, as the `AppContext` operations do:
an absent key parses as the empty object whose `isAuthenticated` is falsy;
a corrupt value makes `JSON.parse` throw (`Except.error`). -/
def parseUserFlag (store : Store) : Except Unit Bool :=
  match store.mapguide_user with
  | Stored.absent => Except.ok false
  | Stored.corrupt => Except.error ()
  | Stored.val u => Except.ok u.isAuthenticated

/-- The `transformedRoute` built in `addRoute` from the remote-save response
(`AppContext.addRoute`, success branch). -/
def transformSaved (route : Route) (saved : SavedRoute) (nowMs : Nat) (nowIso : String) : Route :=
  { id := match saved.id with
          | some n => if n = 0 then toString nowMs else toString n
          | none => toString nowMs
    from_ := route.from_
    to_ := route.to_
    distance := jsOrQ saved.distance route.distance
    duration := jsOrQ saved.duration route.duration
    coordinates := jsOrArr saved.coordinates route.coordinates
    timestamp := jsOrStr saved.createdAt nowIso
    isFavorite := some (jsOrBool saved.favorite false)
    routeType := some (jsOrStr saved.routeType "FASTEST")
    transportMode := some (jsOrStr saved.transportMode "DRIVING") }

/-- The `localRoute` built in `addRoute` for the guest / remote-failure
fallback path. -/
def mkLocalRoute (route : Route) (nowMs : Nat) (nowIso : String) : Route :=
  { route with
    id := jsOrStrV route.id ("local_" ++ toString nowMs)
    timestamp := nowIso
    isFavorite := some (jsOrBool route.isFavorite false)
    routeType := some (jsOrStr route.routeType "FASTEST")
    transportMode := some (jsOrStr route.transportMode "DRIVING") }

/-- The duplicate check of `addRoute`: exact equality of the four
origin/destination coordinates (addresses are not compared). -/
def sameEndpoints (r s : Route) : Bool :=
  decide (r.from_.lat = s.from_.lat) && decide (r.from_.lng = s.from_.lng) &&
  decide (r.to_.lat = s.to_.lat) && decide (r.to_.lng = s.to_.lng)

/-- The update `[r, ...prev.slice(0, 49)]`: prepend, keeping at most 50 records. -/
def prependCapped (r : Route) (prev : List Route) : List Route :=
  r :: prev.take 49

/-- The second `setRoutes` of `addRoute`: skip if a record with the same
endpoints exists, otherwise prepend capped. -/
def addLocalRoute (localRoute : Route) (prev : List Route) : List Route :=
  match prev.find? (fun r => sameEndpoints r localRoute) with
  | some _ => prev
  | none => prependCapped localRoute prev

/-- Function `AppContext.addRoute` after the `mapguide_user` parse: `authOk` is
`user.isAuthenticated and truthy auth_token`; `backend` is the outcome of
`routeService.calculate` (`none` means it threw). On backend success the
transformed route is prepended (no duplicate check) and made current, and
the code then still falls through to the local section, which finds the
just-prepended record as an endpoint duplicate, leaves the list unchanged
and sets the current route to `localRoute`. -/
def addRoute (authOk : Bool) (backend : Option SavedRoute) (nowMs : Nat) (nowIso : String)
    (route : Route) (st : AppState) : AppState :=
  let st1 : AppState :=
    if authOk then
      match backend with
      | some saved =>
          let t := transformSaved route saved nowMs nowIso
          { routes := prependCapped t st.routes, currentRoute := some t }
      | none => st
    else st
  let localRoute := mkLocalRoute route nowMs nowIso
  { routes := addLocalRoute localRoute st1.routes, currentRoute := some localRoute }

/-- Function `addRoute` including the `mapguide_user` parse at its head: a corrupt
stored user makes `JSON.parse` throw, the outer catch rethrows the fixed
user-facing message. -/
def addRouteFull (store : Store) (backend : Option SavedRoute) (nowMs : Nat) (nowIso : String)
    (route : Route) (st : AppState) : Except String AppState :=
  match parseUserFlag store with
  | Except.error _ => Except.error "Failed to save route. Please try again."
  | Except.ok isAuth =>
      Except.ok (addRoute (isAuth && jsTruthyStr store.auth_token) backend nowMs nowIso route st)

/-- One `addRoute` call's inputs, for reasoning about call sequences. -/
structure AddCall where
  authOk : Bool
  backend : Option SavedRoute
  nowMs : Nat
  nowIso : String
  route : Route
deriving Repr

/-- Apply one `AddCall`. -/
def addRouteC (c : AddCall) (st : AppState) : AppState :=
  addRoute c.authOk c.backend c.nowMs c.nowIso c.route st

/-- Run a sequence of `addRoute` calls. -/
def runAddRoutes (calls : List AddCall) (st : AppState) : AppState :=
  calls.foldl (fun s c => addRouteC c s) st

/-- Number of records in a list sharing `r`'s exact endpoint coordinates. -/
def pairCount (l : List Route) (r : Route) : Nat :=
  (l.filter (fun s => sameEndpoints s r)).length

/-- Outcome of `routeService.getUserRoutes`: it threw, or returned a
response; `ok none` models a falsy response or one without `content`,
`ok (some content)` a response carrying a content array. -/
inductive FetchOutcome where
  | threw
  | ok (page : Option (List ServerRoute))
deriving DecidableEq, Repr

/-- The per-record transformation `loadRoutes` applies to each remote
record of `response.content`. -/
def transformServer (r : ServerRoute) : Route :=
  { id := toString r.id
    from_ := { lat := r.fromLatitude, lng := r.fromLongitude, address := r.fromAddress }
    to_ := { lat := r.toLatitude, lng := r.toLongitude, address := r.toAddress }
    distance := r.distance
    duration := r.duration
    coordinates := jsOrArr r.coordinates []
    timestamp := r.createdAt
    isFavorite := r.favorite
    routeType := r.routeType
    transportMode := r.transportMode }

/-- The merge loop of `loadRoutes`: start from the server records and push
each cached record whose id is not already present in the accumulated
list (which grows as cached records are pushed). -/
def mergeRoutes (server : List Route) (localRoutes : List Route) : List Route :=
  localRoutes.foldl
    (fun acc l => if acc.any (fun r => r.id == l.id) then acc else acc ++ [l]) server

/-- Reading `JSON.parse(localStorage.getItem(key) or empty-array)` for a cached
route list: absent parses as `[]`, corrupt throws. -/
def storedListOrEmpty (s : Stored (List Route)) : Except Unit (List Route) :=
  match s with
  | Stored.absent => Except.ok []
  | Stored.corrupt => Except.error ()
  | Stored.val l => Except.ok l

/-- What `loadRoutes` leaves behind: the new React state, the
`routesLoaded` flag and the (possibly updated) store. -/
structure LoadOutput where
  routes : List Route
  currentRoute : Option Route
  routesLoaded : Bool
  store : Store
deriving DecidableEq, Repr

/-- Function `AppContext.loadRoutes`. The body up to the first `setRoutes` is
modelled as an `Except`: any uncaught throw inside the outer `try` lands in
the outer catch, which only logs and sets `routesLoaded`. A corrupt
authenticated-scope cache throws on the happy path, is re-read (and throws
again) in the inner catch, and so reaches the outer catch with the routes
state untouched; the same holds for a corrupt guest cache. The saved
current route is parsed under its own inner catch: a corrupt value is
removed from the store and the in-memory current route is left as it was. -/
def loadRoutes (fetch : FetchOutcome) (store : Store) (st : AppState) : LoadOutput :=
  let inner : Except Unit (List Route) :=
    match parseUserFlag store with
    | Except.error _ => Except.error ()
    | Except.ok isAuth =>
      if isAuth && jsTruthyStr store.auth_token then
        match fetch with
        | FetchOutcome.threw => storedListOrEmpty store.mapguide_user_routes
        | FetchOutcome.ok none => storedListOrEmpty store.mapguide_user_routes
        | FetchOutcome.ok (some content) =>
            match storedListOrEmpty store.mapguide_user_routes with
            | Except.error _ => Except.error ()
            | Except.ok localRoutes =>
                Except.ok (mergeRoutes (content.map transformServer) localRoutes)
      else
        storedListOrEmpty store.mapguide_local_routes
  match inner with
  | Except.error _ =>
      { routes := st.routes, currentRoute := st.currentRoute, routesLoaded := true, store := store }
  | Except.ok newRoutes =>
      match store.current_route with
      | Stored.absent =>
          { routes := newRoutes, currentRoute := st.currentRoute, routesLoaded := true, store := store }
      | Stored.corrupt =>
          { routes := newRoutes, currentRoute := st.currentRoute, routesLoaded := true,
            store := { store with current_route := Stored.absent } }
      | Stored.val r =>
          { routes := newRoutes, currentRoute := some r, routesLoaded := true, store := store }

/-- The routes-persistence `useEffect` of `AppProvider`: when `routesLoaded`
and the list is non-empty, parse `mapguide_user` (no try/catch around this
parse: a corrupt value makes the effect throw) and write the list under the
key of the current auth scope. An empty list is never written. -/
def persistRoutes (routesLoaded : Bool) (routes : List Route) (store : Store) :
    Except Unit Store :=
  if routesLoaded && decide (routes.length > 0) then
    match store.mapguide_user with
    | Stored.absent => Except.ok { store with mapguide_local_routes := Stored.val routes }
    | Stored.corrupt => Except.error ()
    | Stored.val u =>
        if u.isAuthenticated then
          Except.ok { store with mapguide_user_routes := Stored.val routes }
        else
          Except.ok { store with mapguide_local_routes := Stored.val routes }
  else
    Except.ok store

/-- Function `AppContext.deleteRoute`: parse `mapguide_user` (the outer catch
rethrows, so a corrupt value is an error); the best-effort remote delete
has no effect on local state; the record is filtered out of the list and
the current route (state and store) is cleared if it was the deleted one. -/
def deleteRoute (routeId : String) (st : AppState) (store : Store) :
    Except Unit (AppState × Store) :=
  match parseUserFlag store with
  | Except.error _ => Except.error ()
  | Except.ok _isAuth =>
      let routes' := st.routes.filter (fun r => !(r.id == routeId))
      match st.currentRoute with
      | some c =>
          if c.id == routeId then
            Except.ok ({ routes := routes', currentRoute := none },
                       { store with current_route := Stored.absent })
          else
            Except.ok ({ routes := routes', currentRoute := st.currentRoute }, store)
      | none => Except.ok ({ routes := routes', currentRoute := st.currentRoute }, store)

/-- Composition of `deleteRoute`, followed by the routes-persistence effect reacting to the
new list, followed by `loadRoutes` re-reading the store. -/
def deleteThenReload (fetch : FetchOutcome) (routeId : String) (st : AppState) (store : Store) :
    Except Unit LoadOutput :=
  match deleteRoute routeId st store with
  | Except.error e => Except.error e
  | Except.ok (st', store') =>
      match persistRoutes true st'.routes store' with
      | Except.error e => Except.error e
      | Except.ok store'' => Except.ok (loadRoutes fetch store'' st')

/-- JS truthiness of a stored raw string before parsing: an absent key is
falsy; any non-empty stored string (parsable or not) is truthy. -/
def storedTruthy {α : Type} : Stored α → Bool
  | Stored.absent => false
  | Stored.corrupt => true
  | Stored.val _ => true

/-- What `AuthContext.initializeAuth` leaves behind. -/
structure InitResult where
  store : Store
  user : Option User
  initialized : Bool
deriving DecidableEq, Repr

/-- Function `AuthContext.clearAuthData`: remove the five auth keys and null the
session. -/
def clearAuthData (store : Store) : Store :=
  { store with
    mapguide_user := Stored.absent
    auth_token := none
    refresh_token := none
    mapguide_user_temp := Stored.absent
    temp_signup_data := Stored.absent }

/-- Function `AuthContext.initializeAuth`: if a (raw) saved user string and a token
are both present, parse the user; on success trust it immediately with
`isAuthenticated := true` (optimistic rehydration), on parse failure run
`clearAuthData`. Otherwise fall back to the temp/guest user if stored.
`initialized` is set in the `finally`, so it is `true` in every branch. -/
def initializeAuth (store : Store) : InitResult :=
  if storedTruthy store.mapguide_user && jsTruthyStr store.auth_token then
    match store.mapguide_user with
    | Stored.val saved =>
        { store := store, user := some { saved with isAuthenticated := true }, initialized := true }
    | _ =>
        { store := clearAuthData store, user := none, initialized := true }
  else if storedTruthy store.mapguide_user_temp then
    match store.mapguide_user_temp with
    | Stored.val temp => { store := store, user := some temp, initialized := true }
    | _ =>
        { store := { store with mapguide_user_temp := Stored.absent },
          user := none, initialized := true }
  else
    { store := store, user := none, initialized := true }

/-- Outcome of the background `/auth/validate` call: HTTP ok, HTTP not ok,
or the fetch threw (network error or timeout). -/
inductive ValidationOutcome where
  | ok
  | notOk
  | threw
deriving DecidableEq, Repr

/-- Function `AuthContext.validateTokenInBackground`: every outcome only logs; the
session is never touched (no logout on validation failure). Returns the
session together with the warnings logged. -/
def validateTokenInBackground (session : Option User) (outcome : ValidationOutcome) :
    Option User × List String :=
  match outcome with
  | ValidationOutcome.ok => (session, [])
  | ValidationOutcome.notOk =>
      (session, ["Token validation failed in background, but user remains logged in"])
  | ValidationOutcome.threw => (session, ["Background token validation failed"])

/-- Composition of `initializeAuth` followed by the background validation it kicks off in
the token-plus-parsable-user branch. -/
def initializeThenValidate (store : Store) (outcome : ValidationOutcome) :
    InitResult × List String :=
  let r := initializeAuth store
  match store.mapguide_user, jsTruthyStr store.auth_token with
  | Stored.val _, true =>
      let (u, logs) := validateTokenInBackground r.user outcome
      ({ r with user := u }, logs)
  | _, _ => (r, [])

/-- The user record inside a refresh/signin/signup response. -/
structure RespUser where
  id : Nat
  name : String
  email : String
  createdAt : String
  avatarUrl : Option String
deriving DecidableEq, Repr

/-- The body of a successful `/auth/refresh` response as the client reads
it: `accessToken` and `user` are truthiness-tested, so both are `Option`s. -/
structure RefreshResp where
  accessToken : Option String
  user : Option RespUser
deriving DecidableEq, Repr

/-- Outcome of `authService.refresh`: it threw, or resolved with a possibly
falsy body. -/
inductive RefreshOutcome where
  | threw
  | ok (resp : Option RefreshResp)
deriving DecidableEq, Repr

/-- Build the authenticated `User` from a response user record, as `login`,
`verifyOTP` and `refreshToken` all do. -/
def mkAuthUser (u : RespUser) : User :=
  { id := toString u.id, name := u.name, email := u.email, isAuthenticated := true,
    createdAt := u.createdAt, avatarUrl := u.avatarUrl }

/-- Function `AuthContext.refreshToken`: return immediately when no (truthy) token is
stored; on a response carrying a truthy `accessToken` replace the stored
token and, if the response carries a user, update session and stored user;
on a throw or a falsy response leave everything untouched (the catch only
logs). -/
def refreshToken (store : Store) (session : Option User) (outcome : RefreshOutcome) :
    Store × Option User :=
  if jsTruthyStr store.auth_token then
    match outcome with
    | RefreshOutcome.threw => (store, session)
    | RefreshOutcome.ok none => (store, session)
    | RefreshOutcome.ok (some resp) =>
        if jsTruthyStr resp.accessToken then
          match resp.accessToken with
          | some t =>
              let store1 := { store with auth_token := some t }
              match resp.user with
              | none => (store1, session)
              | some u =>
                  let updated := mkAuthUser u
                  ({ store1 with mapguide_user := Stored.val updated }, some updated)
          | none => (store, session)
        else (store, session)
  else (store, session)

/-- The control flow of `AuthContext.verifyOTP` before any network call:
either a validation error thrown locally, or a call to the
account-creation endpoint with the stored payload plus the OTP. -/
inductive VerifyStep where
  | validationError (msg : String)
  | callBackend (payload : SignupData) (otp : String)
deriving DecidableEq, Repr

/-- The pre-network phase of `AuthContext.verifyOTP`: missing temp payload
and email mismatch (case-sensitive `!==`) both throw before the
account-creation endpoint is reached; a corrupt payload makes `JSON.parse`
throw, likewise before any network call. -/
def verifyOTPStep (temp : Stored SignupData) (email otp : String) : VerifyStep :=
  match temp with
  | Stored.absent =>
      VerifyStep.validationError "Signup data not found. Please start signup process again."
  | Stored.corrupt => VerifyStep.validationError "Unexpected token in JSON"
  | Stored.val d =>
      if d.email == email then VerifyStep.callBackend d otp
      else VerifyStep.validationError "Email mismatch. Please start signup process again."

/-- The body of a successful signup-with-OTP response (`accessToken` and
`user` truthiness-tested together). -/
structure AuthSuccess where
  accessToken : String
  user : RespUser
deriving DecidableEq, Repr

/-- Outcome of `authService.signupWithOTP`. -/
inductive SignupBackend where
  | threw (msg : String)
  | ok (resp : Option AuthSuccess)
deriving DecidableEq, Repr

/-- Function `AuthContext.verifyOTP` in full: the result, paired with whether the
account-creation endpoint was invoked at all. -/
def verifyOTP (temp : Stored SignupData) (email otp : String) (backend : SignupBackend) :
    Except String User × Bool :=
  match verifyOTPStep temp email otp with
  | VerifyStep.validationError msg => (Except.error msg, false)
  | VerifyStep.callBackend _d _o =>
      match backend with
      | SignupBackend.threw msg => (Except.error msg, true)
      | SignupBackend.ok none => (Except.error "Invalid response format from server", true)
      | SignupBackend.ok (some a) => (Except.ok (mkAuthUser a.user), true)

/-- Left-pad a fractional part to four digits, as `toFixed(4)` renders it. -/
def padZeros4 (k : Nat) : String :=
  let s := toString k
  String.mk (List.replicate (4 - s.length) '0') ++ s

/-- JS `x.toFixed(4)`: round to four decimal places and render with exactly
four fractional digits. -/
def fixed4 (q : ℚ) : String :=
  let n : ℤ := round (q * 10000)
  let sign := if n < 0 then "-" else ""
  sign ++ toString (n.natAbs / 10000) ++ "." ++ padZeros4 (n.natAbs % 10000)

/-- The coordinate string the hook uses as address fallback. -/
def coordString (lat lng : ℚ) : String :=
  fixed4 lat ++ ", " ++ fixed4 lng

/-- What `getCurrentLocation` resolves with. -/
structure GeoResult where
  latitude : ℚ
  longitude : ℚ
  address : Option String
deriving DecidableEq, Repr

/-- Outcome of acquiring the device position: geolocation unsupported, the
position promise rejected, or a fix with coordinates. -/
inductive PositionOutcome where
  | unsupported
  | err (msg : String)
  | ok (lat lng : ℚ)
deriving DecidableEq, Repr

/-- A feature of the MapTiler reverse-geocoding response; `place_name` is
truthiness-tested. -/
structure Feature where
  place_name : Option String
deriving DecidableEq, Repr

/-- Outcome of the MapTiler fetch: it threw, the response was not ok, or
ok with a parsed body whose `features` may be missing or empty. -/
inductive MaptilerOutcome where
  | threw
  | notOk
  | okJson (features : Option (List Feature))
deriving DecidableEq, Repr

/-- Outcome of the Nominatim fetch: it threw, the response was not ok, or
ok with a parsed body whose `display_name` is truthiness-tested. -/
inductive NominatimOutcome where
  | threw
  | notOk
  | okJson (display_name : Option String)
deriving DecidableEq, Repr

/-- The MapTiler block of `getCurrentLocation`: returns a result only when
the fetch did not throw, the response was ok and `features` is non-empty;
every other outcome falls through to the Nominatim block. -/
def maptilerLookup (lat lng : ℚ) (mt : MaptilerOutcome) : Option GeoResult :=
  match mt with
  | MaptilerOutcome.okJson (some (f :: _)) =>
      some { latitude := lat, longitude := lng,
             address := some (jsOrStr f.place_name (coordString lat lng)) }
  | _ => none

/-- The Nominatim block plus the final coordinates-only return of
`getCurrentLocation`: an ok response yields `display_name` (or the
coordinate string if that is falsy); a throw or non-ok response yields the
coordinate string. -/
def nominatimFallback (lat lng : ℚ) (nm : NominatimOutcome) : GeoResult :=
  match nm with
  | NominatimOutcome.okJson dn =>
      { latitude := lat, longitude := lng,
        address := some (jsOrStr dn (coordString lat lng)) }
  | _ => { latitude := lat, longitude := lng, address := some (coordString lat lng) }

/-- Function `useGeolocation.getCurrentLocation`: returns the resolved value and the
error state it sets. A failed position acquisition resolves with `none` and
an error message; once a position is acquired, the provider chain is tried
with each provider call under its own catch. -/
def getCurrentLocation (pos : PositionOutcome) (mt : MaptilerOutcome) (nm : NominatimOutcome) :
    Option GeoResult × Option String :=
  match pos with
  | PositionOutcome.unsupported =>
      (none, some "Geolocation is not supported by this browser")
  | PositionOutcome.err msg => (none, some msg)
  | PositionOutcome.ok lat lng =>
      match maptilerLookup lat lng mt with
      | some r => (some r, none)
      | none => (some (nominatimFallback lat lng nm), none)

/-! ## Helper lemmas about `addRoute` -/

theorem sameEndpoints_mkLocal_right (s r : Route) (n : Nat) (i : String) :
    sameEndpoints s (mkLocalRoute r n i) = sameEndpoints s r := by
  simp [sameEndpoints, mkLocalRoute]

theorem sameEndpoints_mkLocal_left (r s : Route) (n : Nat) (i : String) :
    sameEndpoints (mkLocalRoute r n i) s = sameEndpoints r s := by
  simp [sameEndpoints, mkLocalRoute]

theorem sameEndpoints_self (r : Route) : sameEndpoints r r = true := by
  simp [sameEndpoints]

theorem sameEndpoints_transform_mkLocal (r : Route) (saved : SavedRoute)
    (n m : Nat) (i j : String) :
    sameEndpoints (transformSaved r saved n i) (mkLocalRoute r m j) = true := by
  simp [sameEndpoints, transformSaved, mkLocalRoute]

theorem addRoute_guest (a : Bool) (b : Option SavedRoute) (n : Nat) (i : String)
    (r : Route) (st : AppState) (h : a = false ∨ b = none) :
    addRoute a b n i r st =
      { routes := addLocalRoute (mkLocalRoute r n i) st.routes,
        currentRoute := some (mkLocalRoute r n i) } := by
  rcases h with h | h <;> subst h
  · simp [addRoute]
  · cases a <;> simp [addRoute]

theorem addRoute_routes_shape (a : Bool) (b : Option SavedRoute) (n : Nat) (i : String)
    (r : Route) (st : AppState) :
    (addRoute a b n i r st).routes = st.routes ∨
      ∃ nw, (addRoute a b n i r st).routes = nw :: st.routes.take 49 := by
  have guest : ∀ h : a = false ∨ b = none,
      (addRoute a b n i r st).routes = st.routes ∨
        ∃ nw, (addRoute a b n i r st).routes = nw :: st.routes.take 49 := by
    intro h
    rw [addRoute_guest a b n i r st h]
    unfold addLocalRoute
    cases hf : st.routes.find? (fun s => sameEndpoints s (mkLocalRoute r n i)) with
    | some x => exact Or.inl rfl
    | none => exact Or.inr ⟨mkLocalRoute r n i, rfl⟩
  cases a with
  | false => exact guest (Or.inl rfl)
  | true =>
    cases b with
    | none => exact guest (Or.inr rfl)
    | some saved =>
      have hfind : List.find? (fun s => sameEndpoints s (mkLocalRoute r n i))
          (transformSaved r saved n i :: st.routes.take 49) =
          some (transformSaved r saved n i) :=
        List.find?_cons_of_pos _ (sameEndpoints_transform_mkLocal r saved n n i i)
      refine Or.inr ⟨transformSaved r saved n i, ?_⟩
      simp [addRoute, addLocalRoute, prependCapped, hfind]

theorem addRoute_length_le (a : Bool) (b : Option SavedRoute) (n : Nat) (i : String)
    (r : Route) (st : AppState) (h : st.routes.length ≤ 50) :
    (addRoute a b n i r st).routes.length ≤ 50 := by
  rcases addRoute_routes_shape a b n i r st with h1 | ⟨nw, h1⟩
  · rw [h1]; exact h
  · rw [h1, List.length_cons, List.length_take]; omega

/-! ## C1: authenticated `addRoute` with a successful remote save -/

/-- C1 (amended): for every authenticated `addRoute` call whose remote save
succeeds, the server-confirmed record is at the head of the route list,
but the current route is set to the locally tagged fallback record (the
fall-through local section runs afterwards), not to the server-confirmed
record. -/
theorem addRoute_auth_success_head_and_current
    (route : Route) (st : AppState) (saved : SavedRoute) (nowMs : Nat) (nowIso : String) :
    (addRoute true (some saved) nowMs nowIso route st).routes.head? =
        some (transformSaved route saved nowMs nowIso) ∧
    (addRoute true (some saved) nowMs nowIso route st).currentRoute =
        some (mkLocalRoute route nowMs nowIso) := by
  have hfind : List.find? (fun s => sameEndpoints s (mkLocalRoute route nowMs nowIso))
      (transformSaved route saved nowMs nowIso :: st.routes.take 49) =
      some (transformSaved route saved nowMs nowIso) :=
    List.find?_cons_of_pos _ (sameEndpoints_transform_mkLocal route saved nowMs nowMs nowIso nowIso)
  constructor
  · simp [addRoute, addLocalRoute, prependCapped, hfind]
  · simp [addRoute]

/-- A concrete input route for counterexamples (empty id, so the fallback
record gets a `local_`-prefixed id). -/
def cxRouteIn : Route :=
  { id := "", from_ := { lat := 1, lng := 2, address := "a" },
    to_ := { lat := 3, lng := 4, address := "b" }, distance := 5, duration := 6,
    coordinates := [], timestamp := "t0", isFavorite := none, routeType := none,
    transportMode := none }

/-- A concrete successful remote-save response carrying server id 5. -/
def cxSaved : SavedRoute :=
  { id := some 5, distance := some 7, duration := some 8, coordinates := some [(1, 2)],
    createdAt := some "2024-01-01", favorite := some false, routeType := some "FASTEST",
    transportMode := some "DRIVING" }

/-- C1 counterexample: on a concrete authenticated call with a successful
remote save, the server-confirmed record (server id `"5"`) is at the head of
the list, yet the current route is not that record — refuting the claim
that the server-confirmed record is also the current route. -/
theorem addRoute_auth_success_current_mismatch :
    (addRoute true (some cxSaved) 1000 "iso" cxRouteIn
        { routes := [], currentRoute := none }).routes.head? =
      some (transformSaved cxRouteIn cxSaved 1000 "iso") ∧
    (transformSaved cxRouteIn cxSaved 1000 "iso").id = "5" ∧
    (addRoute true (some cxSaved) 1000 "iso" cxRouteIn
        { routes := [], currentRoute := none }).currentRoute ≠
      some (transformSaved cxRouteIn cxSaved 1000 "iso") := by decide

/-! ## C2: duplicate suppression -/

theorem pairCount_zero_iff (l : List Route) (r : Route) :
    pairCount l r = 0 ↔ ∀ s ∈ l, ¬ sameEndpoints s r = true := by
  rw [pairCount, List.length_eq_zero, List.filter_eq_nil_iff]

theorem find?_mkLocal_none_of_pairCount_zero (l : List Route) (r : Route)
    (n : Nat) (i : String) (h : pairCount l r = 0) :
    l.find? (fun s => sameEndpoints s (mkLocalRoute r n i)) = none := by
  rw [List.find?_eq_none]
  intro x hx
  rw [sameEndpoints_mkLocal_right]
  exact (pairCount_zero_iff l r).mp h x hx

theorem pairCount_take_zero (l : List Route) (r : Route) (k : Nat)
    (h : pairCount l r = 0) : pairCount (l.take k) r = 0 := by
  rw [pairCount_zero_iff] at h ⊢
  exact fun s hs => h s (List.take_subset k l hs)

/-- C2 (amended): on the guest / remote-failure path (the only path with a
duplicate check), invoking `addRoute` twice with identical origin and
destination coordinates, starting from a list with no record carrying that
coordinate pair, yields a list containing exactly one record with that
pair. -/
theorem addRoute_local_idempotent
    (st : AppState) (r : Route) (a1 a2 : Bool) (b1 b2 : Option SavedRoute)
    (n1 n2 : Nat) (i1 i2 : String)
    (h1 : a1 = false ∨ b1 = none) (h2 : a2 = false ∨ b2 = none)
    (h0 : pairCount st.routes r = 0) :
    pairCount (addRoute a2 b2 n2 i2 r (addRoute a1 b1 n1 i1 r st)).routes r = 1 := by
  rw [addRoute_guest a1 b1 n1 i1 r st h1]
  have hf1 := find?_mkLocal_none_of_pairCount_zero st.routes r n1 i1 h0
  have hroutes1 : (addRoute a1 b1 n1 i1 r st).routes =
      mkLocalRoute r n1 i1 :: st.routes.take 49 := by
    rw [addRoute_guest a1 b1 n1 i1 r st h1]
    simp [addLocalRoute, hf1, prependCapped]
  rw [← addRoute_guest a1 b1 n1 i1 r st h1, addRoute_guest a2 b2 n2 i2 r _ h2]
  have hf2 : List.find? (fun s => sameEndpoints s (mkLocalRoute r n2 i2))
      (addRoute a1 b1 n1 i1 r st).routes = some (mkLocalRoute r n1 i1) := by
    rw [hroutes1]
    refine List.find?_cons_of_pos _ ?_
    rw [sameEndpoints_mkLocal_right, sameEndpoints_mkLocal_left]
    exact sameEndpoints_self r
  simp only [addLocalRoute, hf2]
  rw [hroutes1, pairCount, List.filter_cons]
  have hsame : sameEndpoints (mkLocalRoute r n1 i1) r = true := by
    rw [sameEndpoints_mkLocal_left]; exact sameEndpoints_self r
  rw [if_pos hsame, List.length_cons]
  have := pairCount_take_zero st.routes r 49 h0
  rw [pairCount] at this
  rw [this]

/-- C2 counterexample: on the authenticated path with a successful remote
save there is no duplicate check — two `addRoute` calls with identical
coordinates, starting from the empty list, leave two records with that
(origin, destination) pair in the list. -/
theorem addRoute_auth_success_duplicates :
    pairCount (addRoute true (some cxSaved) 2000 "B" cxRouteIn
        (addRoute true (some cxSaved) 1000 "A" cxRouteIn
          { routes := [], currentRoute := none })).routes cxRouteIn = 2 := by decide

/-- C2 witness: the amended statement applied at a concrete guest call
pair starting from the empty list. -/
theorem addRoute_local_idempotent_witness :
    pairCount (addRoute false none 2000 "B" cxRouteIn
        (addRoute false none 1000 "A" cxRouteIn
          { routes := [], currentRoute := none })).routes cxRouteIn = 1 :=
  addRoute_local_idempotent { routes := [], currentRoute := none } cxRouteIn
    false false none none 1000 2000 "A" "B" (Or.inl rfl) (Or.inl rfl) (by decide)

/-! ## C3: the 50-record cap and oldest-first eviction -/

/-- C3 (as claimed): starting from any list of at most 50 records, any
sequence of `addRoute` calls keeps the list at no more than 50 records;
moreover each single call either leaves the list unchanged or prepends one
new record while keeping only the first 49 of the previous records, so the
records evicted at the cap are exactly the oldest ones (the tail of the
newest-first list). -/
theorem addRoute_cap_fifty (calls : List AddCall) (st : AppState)
    (h : st.routes.length ≤ 50) :
    (runAddRoutes calls st).routes.length ≤ 50 ∧
    ∀ (c : AddCall) (s : AppState),
      (addRouteC c s).routes = s.routes ∨
        ∃ nw, (addRouteC c s).routes = nw :: s.routes.take 49 := by
  constructor
  · induction calls generalizing st with
    | nil => exact h
    | cons c cs ih =>
        have : runAddRoutes (c :: cs) st = runAddRoutes cs (addRouteC c st) := rfl
        rw [this]
        exact ih _ (addRoute_length_le c.authOk c.backend c.nowMs c.nowIso c.route st h)
  · exact fun c s => addRoute_routes_shape c.authOk c.backend c.nowMs c.nowIso c.route s

/-- C3 witness: the cap theorem applied to a concrete two-call sequence on
an initially empty list. -/
theorem addRoute_cap_fifty_witness :
    (runAddRoutes [{ authOk := true, backend := some cxSaved, nowMs := 1, nowIso := "A",
                     route := cxRouteIn },
                   { authOk := false, backend := none, nowMs := 2, nowIso := "B",
                     route := cxRouteIn }]
        { routes := [], currentRoute := none }).routes.length ≤ 50 :=
  (addRoute_cap_fifty _ { routes := [], currentRoute := none } (by decide)).1

/-! ## C4: deleteRoute followed by loadRoutes -/

theorem deleteRoute_ok_parse (rid : String) (st : AppState) (store : Store) (isA : Bool)
    (hp : parseUserFlag store = Except.ok isA) :
    ∃ cur store', deleteRoute rid st store =
        Except.ok ({ routes := st.routes.filter (fun r => !(r.id == rid)),
                     currentRoute := cur }, store') ∧
      store'.mapguide_user = store.mapguide_user ∧
      store'.mapguide_local_routes = store.mapguide_local_routes ∧
      store'.auth_token = store.auth_token := by
  unfold deleteRoute
  rw [hp]
  cases hc : st.currentRoute with
  | none => exact ⟨none, store, rfl, rfl, rfl, rfl⟩
  | some c =>
      by_cases h : (c.id == rid) = true
      · refine ⟨none, { store with current_route := Stored.absent }, ?_, rfl, rfl, rfl⟩
        simp [h]
      · refine ⟨some c, store, ?_, rfl, rfl, rfl⟩
        simp [h, hc]

/-- The transformed records a fetch outcome contributes from the server:
empty unless the fetch resolved with a content array. -/
def serverRecords : FetchOutcome → List Route
  | FetchOutcome.ok (some content) => content.map transformServer
  | _ => []

theorem mem_mergeRoutes (cache : List Route) :
    ∀ (acc : List Route) (r : Route), r ∈ mergeRoutes acc cache → r ∈ acc ∨ r ∈ cache := by
  induction cache with
  | nil => intro acc r h; exact Or.inl h
  | cons x xs ih =>
      intro acc r h
      have hstep : mergeRoutes acc (x :: xs) =
          mergeRoutes (if acc.any (fun s => s.id == x.id) then acc else acc ++ [x]) xs := by
        simp [mergeRoutes]
      rw [hstep] at h
      by_cases hax : acc.any (fun s => s.id == x.id) = true
      · rw [if_pos hax] at h
        rcases ih acc r h with h1 | h1
        · exact Or.inl h1
        · exact Or.inr (List.mem_cons_of_mem x h1)
      · rw [if_neg hax] at h
        rcases ih (acc ++ [x]) r h with h1 | h1
        · rcases List.mem_append.mp h1 with h2 | h2
          · exact Or.inl h2
          · exact Or.inr (List.mem_cons.mpr (Or.inl (List.mem_singleton.mp h2)))
        · exact Or.inr (List.mem_cons_of_mem x h1)

theorem persistRoutes_write (routes : List Route) (store : Store) (isA : Bool)
    (hu : parseUserFlag store = Except.ok isA) (hne : routes ≠ []) :
    persistRoutes true routes store =
      Except.ok (if isA then { store with mapguide_user_routes := Stored.val routes }
        else { store with mapguide_local_routes := Stored.val routes }) := by
  have hcond : (true && decide (routes.length > 0)) = true := by
    simp only [Bool.true_and, decide_eq_true_eq, List.length_pos]
    exact hne
  unfold persistRoutes
  rw [hcond]
  cases h : store.mapguide_user with
  | absent =>
      have hA : isA = false := by simpa [parseUserFlag, h] using hu.symm
      simp [hA]
  | corrupt => simp [parseUserFlag, h] at hu
  | val u =>
      have heq : u.isAuthenticated = isA := by simpa [parseUserFlag, h] using hu
      subst heq
      cases hA : u.isAuthenticated <;> simp [hA]

theorem loadRoutes_guest_routes (fetch : FetchOutcome) (store : Store) (stx : AppState)
    (cache : List Route)
    (hpf : parseUserFlag store = Except.ok false)
    (hcache : store.mapguide_local_routes = Stored.val cache) :
    (loadRoutes fetch store stx).routes = cache := by
  unfold loadRoutes
  rw [hpf, hcache]
  simp only [Bool.false_and, Bool.false_eq_true, if_false, storedListOrEmpty]
  cases store.current_route <;> simp

theorem loadRoutes_auth_members (fetch : FetchOutcome) (store : Store) (stx : AppState)
    (cache : List Route)
    (hpf : parseUserFlag store = Except.ok true)
    (hta : jsTruthyStr store.auth_token = true)
    (hcache : store.mapguide_user_routes = Stored.val cache) :
    ∀ r ∈ (loadRoutes fetch store stx).routes, r ∈ serverRecords fetch ∨ r ∈ cache := by
  have hroutes : (loadRoutes fetch store stx).routes =
      match fetch with
      | FetchOutcome.ok (some content) => mergeRoutes (content.map transformServer) cache
      | _ => cache := by
    unfold loadRoutes
    rw [hpf]
    cases fetch with
    | threw =>
        cases hcr : store.current_route <;> simp [hta, hcache, hcr, storedListOrEmpty]
    | ok page =>
        cases page with
        | none =>
            cases hcr : store.current_route <;> simp [hta, hcache, hcr, storedListOrEmpty]
        | some content =>
            cases hcr : store.current_route <;> simp [hta, hcache, hcr, storedListOrEmpty]
  intro r hr
  rw [hroutes] at hr
  cases fetch with
  | threw => exact Or.inr hr
  | ok page =>
      cases page with
      | none => exact Or.inr hr
      | some content =>
          rcases mem_mergeRoutes cache (content.map transformServer) r hr with h | h
          · exact Or.inl h
          · exact Or.inr h

theorem parseUserFlag_set_local (store : Store) (l : Stored (List Route)) :
    parseUserFlag { store with mapguide_local_routes := l } = parseUserFlag store := rfl

theorem parseUserFlag_set_user_routes (store : Store) (l : Stored (List Route)) :
    parseUserFlag { store with mapguide_user_routes := l } = parseUserFlag store := rfl

/-- C4 (amended): in either auth scope, `deleteRoute(id)` followed by the
persistence effect and `loadRoutes()` yields a list in which the deleted id
never comes from that scope's local cache: any record still carrying the
deleted id must be a transformed server record of an authenticated fetch
(the remote delete is best-effort). The proviso forced by the
counterexample: the list remaining after the deletion is non-empty, since
the persistence effect only overwrites the cached copy for non-empty
lists. -/
theorem delete_then_reload_no_resurface_from_cache
    (fetch : FetchOutcome) (rid : String) (st : AppState) (store : Store) (isAuth : Bool)
    (hu : parseUserFlag store = Except.ok isAuth)
    (ht : isAuth = true → jsTruthyStr store.auth_token = true)
    (hne : st.routes.filter (fun r => !(r.id == rid)) ≠ []) :
    ∃ out, deleteThenReload fetch rid st store = Except.ok out ∧
      ∀ r ∈ out.routes, r.id = rid → isAuth = true ∧ r ∈ serverRecords fetch := by
  obtain ⟨cur, store', hdel, hmu, _hml, hat⟩ := deleteRoute_ok_parse rid st store isAuth hu
  have hu' : parseUserFlag store' = Except.ok isAuth := by
    unfold parseUserFlag at hu ⊢
    rw [hmu]
    exact hu
  have hfree : ∀ r ∈ st.routes.filter (fun r => !(r.id == rid)), r.id ≠ rid := by
    intro r hr
    have h2 := (List.mem_filter.mp hr).2
    rw [Bool.not_eq_true'] at h2
    exact beq_eq_false_iff_ne.mp h2
  have hpersist := persistRoutes_write (st.routes.filter (fun r => !(r.id == rid))) store'
    isAuth hu' hne
  cases isAuth with
  | false =>
      rw [if_neg Bool.false_ne_true] at hpersist
      refine ⟨loadRoutes fetch
          { store' with mapguide_local_routes :=
              Stored.val (st.routes.filter (fun r => !(r.id == rid))) }
          { routes := st.routes.filter (fun r => !(r.id == rid)), currentRoute := cur },
        ?_, ?_⟩
      · unfold deleteThenReload
        rw [hdel]
        dsimp only
        rw [hpersist]
      · intro r hr hrid
        rw [loadRoutes_guest_routes fetch
            { store' with mapguide_local_routes :=
                Stored.val (st.routes.filter (fun r => !(r.id == rid))) }
            { routes := st.routes.filter (fun r => !(r.id == rid)), currentRoute := cur }
            (st.routes.filter (fun r => !(r.id == rid)))
            (by rw [parseUserFlag_set_local]; exact hu') rfl] at hr
        exact absurd hrid (hfree r hr)
  | true =>
      rw [if_pos rfl] at hpersist
      refine ⟨loadRoutes fetch
          { store' with mapguide_user_routes :=
              Stored.val (st.routes.filter (fun r => !(r.id == rid))) }
          { routes := st.routes.filter (fun r => !(r.id == rid)), currentRoute := cur },
        ?_, ?_⟩
      · unfold deleteThenReload
        rw [hdel]
        dsimp only
        rw [hpersist]
      · intro r hr hrid
        rcases loadRoutes_auth_members fetch
            { store' with mapguide_user_routes :=
                Stored.val (st.routes.filter (fun r => !(r.id == rid))) }
            { routes := st.routes.filter (fun r => !(r.id == rid)), currentRoute := cur }
            (st.routes.filter (fun r => !(r.id == rid)))
            (by rw [parseUserFlag_set_user_routes]; exact hu')
            (by show jsTruthyStr store'.auth_token = true; rw [hat]; exact ht rfl)
            rfl r hr with h | h
        · exact ⟨rfl, h⟩
        · exact absurd hrid (hfree r h)

/-- A simple concrete route record with a given id. -/
def sampleRoute (idv : String) (q : ℚ) : Route :=
  { id := idv, from_ := { lat := q, lng := q, address := "x" },
    to_ := { lat := q, lng := q, address := "y" }, distance := 1, duration := 1,
    coordinates := [], timestamp := "t", isFavorite := some false,
    routeType := some "FASTEST", transportMode := some "DRIVING" }

/-- A store with every key empty. -/
def emptyStore : Store :=
  { mapguide_user := Stored.absent, auth_token := none, refresh_token := none,
    mapguide_user_temp := Stored.absent, temp_signup_data := Stored.absent,
    mapguide_user_routes := Stored.absent, mapguide_local_routes := Stored.absent,
    current_route := Stored.absent }

/-- A concrete authenticated user record for concrete store inputs. -/
def cxAuthUser : User :=
  { id := "7", name := "n", email := "e", isAuthenticated := true,
    createdAt := "c", avatarUrl := none }

/-- A concrete remote record with server id 9. -/
def cxSrvRec : ServerRoute :=
  { id := 9, fromLatitude := 0, fromLongitude := 0, fromAddress := "x",
    toLatitude := 0, toLongitude := 0, toAddress := "y", distance := 1, duration := 1,
    coordinates := none, createdAt := "t", favorite := some false,
    routeType := some "FASTEST", transportMode := some "DRIVING" }

/-- The guest store for the C4 counterexample: the cached guest list holds
exactly the record about to be deleted. -/
def cxStore4 : Store :=
  { emptyStore with mapguide_local_routes := Stored.val [sampleRoute "1" 0] }

/-- C4 counterexample: when the deleted record was the only entry, the
emptied list is never persisted (`routes.length > 0` guard), so the reload
reads the stale cache and the deleted id resurfaces. -/
theorem delete_then_reload_resurfaces_sole_entry :
    deleteThenReload (FetchOutcome.ok none) "1"
        { routes := [sampleRoute "1" 0], currentRoute := none } cxStore4 =
      Except.ok { routes := [sampleRoute "1" 0], currentRoute := none,
                  routesLoaded := true, store := cxStore4 } ∧
    (sampleRoute "1" 0).id = "1" := by decide

/-- The authenticated store for the C4 witness: token present, cached
authenticated-scope list holding the record to delete plus one more. -/
def cxStore4w : Store :=
  { emptyStore with
    mapguide_user := Stored.val cxAuthUser,
    auth_token := some "tok",
    mapguide_user_routes := Stored.val [sampleRoute "1" 0, sampleRoute "2" 3] }

/-- C4 witness: the amended statement applied in the authenticated scope,
with a successful fetch returning one server record: after deleting one of
two cached records, the reloaded list can carry the deleted id only on
server-sourced records, never from the cache. -/
theorem delete_then_reload_no_resurface_witness :
    ∃ out, deleteThenReload (FetchOutcome.ok (some [cxSrvRec])) "1"
        { routes := [sampleRoute "1" 0, sampleRoute "2" 3], currentRoute := none }
        cxStore4w = Except.ok out ∧
      ∀ r ∈ out.routes, r.id = "1" →
        true = true ∧ r ∈ serverRecords (FetchOutcome.ok (some [cxSrvRec])) :=
  delete_then_reload_no_resurface_from_cache (FetchOutcome.ok (some [cxSrvRec])) "1"
    { routes := [sampleRoute "1" 0, sampleRoute "2" 3], currentRoute := none }
    cxStore4w true (by decide) (fun _ => by decide) (by decide)

/-! ## C5: authenticated loadRoutes with a successful fetch -/

theorem mergeRoutes_eq_append_filter (cache : List Route) :
    ∀ acc : List Route, (cache.map Route.id).Nodup →
      mergeRoutes acc cache =
        acc ++ cache.filter (fun l => !(acc.any (fun r => r.id == l.id))) := by
  induction cache with
  | nil => intro acc _; simp [mergeRoutes]
  | cons x xs ih =>
      intro acc hnd
      rw [List.map_cons, List.nodup_cons] at hnd
      obtain ⟨hx, hnd⟩ := hnd
      have hstep : mergeRoutes acc (x :: xs) =
          mergeRoutes (if acc.any (fun r => r.id == x.id) then acc else acc ++ [x]) xs := by
        simp [mergeRoutes]
      by_cases hax : acc.any (fun r => r.id == x.id) = true
      · rw [hstep, if_pos hax, ih acc hnd, List.filter_cons]
        have : (!(acc.any (fun r => r.id == x.id))) = false := by rw [hax]; rfl
        rw [if_neg (by rw [this]; exact Bool.false_ne_true)]
      · rw [hstep, if_neg hax, ih (acc ++ [x]) hnd]
        rw [Bool.not_eq_true] at hax
        have hfilter : xs.filter (fun l => !((acc ++ [x]).any (fun r => r.id == l.id))) =
            xs.filter (fun l => !(acc.any (fun r => r.id == l.id))) := by
          refine List.filter_congr ?_
          intro l hl
          have hne : (x.id == l.id) = false := by
            refine beq_eq_false_iff_ne.mpr ?_
            intro heq
            exact hx (heq ▸ List.mem_map_of_mem Route.id hl)
          rw [List.any_append]
          simp [hne]
        rw [hfilter, List.filter_cons]
        have hpx : (!(acc.any (fun r => r.id == x.id))) = true := by rw [hax]; rfl
        rw [if_pos hpx]
        simp

/-- C5 (amended): for an authenticated `loadRoutes` whose backend fetch
succeeds and whose cached authenticated-scope records carry pairwise
distinct ids, the resulting list is the transformed server records followed
by exactly those cached records whose id does not occur among the server
records' ids. (Without the distinct-id assumption the code also drops later
cached records that repeat the id of an earlier cached record.) -/
theorem loadRoutes_auth_success_merge
    (store : Store) (st : AppState) (content : List ServerRoute) (cache : List Route)
    (hu : parseUserFlag store = Except.ok true)
    (ht : jsTruthyStr store.auth_token = true)
    (hc : store.mapguide_user_routes = Stored.val cache)
    (hnd : (cache.map Route.id).Nodup) :
    (loadRoutes (FetchOutcome.ok (some content)) store st).routes =
      content.map transformServer ++
        cache.filter
          (fun l => !((content.map transformServer).any (fun r => r.id == l.id))) := by
  unfold loadRoutes
  rw [hu, ht, hc]
  simp only [Bool.true_and, if_true, storedListOrEmpty]
  rw [mergeRoutes_eq_append_filter cache (content.map transformServer) hnd]
  cases store.current_route <;> simp

/-- The spec's description of the authenticated merge, written from the
spec's words for comparison with the code: server records first, then every
cached record whose id is not among the server records' ids. -/
def specServerLocalUnion (server cache : List Route) : List Route :=
  server ++ cache.filter (fun l => !(server.any (fun r => r.id == l.id)))

/-- The authenticated store whose cached list holds two records sharing
id `"9"`. -/
def cxStore5 : Store :=
  { emptyStore with
    mapguide_user := Stored.val cxAuthUser,
    auth_token := some "tok",
    mapguide_user_routes := Stored.val [sampleRoute "9" 0, sampleRoute "9" 3] }

/-- C5 counterexample: with an empty server page and a cached list holding
two records with the same id `"9"`, the code keeps only the first cached
record, while the spec's union formula keeps both. -/
theorem loadRoutes_merge_ne_spec_union :
    (loadRoutes (FetchOutcome.ok (some [])) cxStore5
        { routes := [], currentRoute := none }).routes = [sampleRoute "9" 0] ∧
    specServerLocalUnion (([] : List ServerRoute).map transformServer)
        [sampleRoute "9" 0, sampleRoute "9" 3] =
      [sampleRoute "9" 0, sampleRoute "9" 3] ∧
    (loadRoutes (FetchOutcome.ok (some [])) cxStore5
        { routes := [], currentRoute := none }).routes ≠
      specServerLocalUnion (([] : List ServerRoute).map transformServer)
        [sampleRoute "9" 0, sampleRoute "9" 3] := by decide

/-- The authenticated store for the C5 witness: one server record, a cache
with two distinct ids. -/
def cxStore5w : Store :=
  { emptyStore with
    mapguide_user := Stored.val cxAuthUser,
    auth_token := some "tok",
    mapguide_user_routes := Stored.val [sampleRoute "9" 0, sampleRoute "2" 3] }

/-- C5 witness: the amended statement applied to a concrete authenticated
store with one server record and a distinct-id cache. -/
theorem loadRoutes_auth_success_merge_witness :
    (loadRoutes (FetchOutcome.ok (some [cxSrvRec])) cxStore5w
        { routes := [], currentRoute := none }).routes =
      [cxSrvRec].map transformServer ++
        [sampleRoute "9" 0, sampleRoute "2" 3].filter
          (fun l => !(([cxSrvRec].map transformServer).any (fun r => r.id == l.id))) :=
  loadRoutes_auth_success_merge cxStore5w { routes := [], currentRoute := none }
    [cxSrvRec] [sampleRoute "9" 0, sampleRoute "2" 3]
    (by decide) (by decide) rfl (by decide)

/-! ## C6: verifyOTP validation guard -/

/-- C6: when no temporary signup payload is stored, or the stored payload's
email differs from the argument under case-sensitive string equality,
`verifyOTP` fails with a validation error and the account-creation endpoint
is never invoked, whatever the backend would have answered. -/
theorem verifyOTP_validation_guard
    (temp : Stored SignupData) (email otp : String) (backend : SignupBackend)
    (h : temp = Stored.absent ∨ ∃ d, temp = Stored.val d ∧ d.email ≠ email) :
    (verifyOTP temp email otp backend).2 = false ∧
      ∃ msg, (verifyOTP temp email otp backend).1 = Except.error msg := by
  rcases h with h | ⟨d, hd, hne⟩
  · subst h
    exact ⟨rfl, "Signup data not found. Please start signup process again.", rfl⟩
  · subst hd
    have hb : (d.email == email) = false := beq_eq_false_iff_ne.mpr hne
    refine ⟨?_, "Email mismatch. Please start signup process again.", ?_⟩ <;>
      simp [verifyOTP, verifyOTPStep, hb]

/-- A stored signup payload whose email has an upper-case first letter. -/
def cxSignupPayload : SignupData :=
  { name := "n", email := "User@x.com", password := "p" }

/-- The response user record used in concrete auth inputs. -/
def cxRespUser : RespUser :=
  { id := 1, name := "n", email := "user@x.com", createdAt := "c", avatarUrl := none }

/-- A would-be-successful account-creation response, to show the guard
ignores it. -/
def cxSignupBackendOk : SignupBackend :=
  SignupBackend.ok (some { accessToken := "tok", user := cxRespUser })

/-- C6 witness: a stored payload whose email differs from the argument only
in the case of its first character is rejected before the backend call,
even though the backend response supplied here would have succeeded. -/
theorem verifyOTP_validation_guard_witness :
    (verifyOTP (Stored.val cxSignupPayload) "user@x.com" "123456" cxSignupBackendOk).2
        = false ∧
    ∃ msg, (verifyOTP (Stored.val cxSignupPayload) "user@x.com" "123456"
        cxSignupBackendOk).1 = Except.error msg :=
  verifyOTP_validation_guard _ "user@x.com" "123456" _
    (Or.inr ⟨_, rfl, by decide⟩)

/-! ## C7: refreshToken atomicity -/

/-- C7: `refreshToken` leaves the stored token and the session exactly as
they were whenever the refresh call throws, and the stored token changes
only when the call succeeds with a (truthy) new access token, which then
becomes the stored token. -/
theorem refreshToken_atomic (store : Store) (session : Option User) (outcome : RefreshOutcome) :
    refreshToken store session RefreshOutcome.threw = (store, session) ∧
    ((refreshToken store session outcome).1.auth_token ≠ store.auth_token →
      ∃ resp t, outcome = RefreshOutcome.ok (some resp) ∧ resp.accessToken = some t ∧
        ¬ t.isEmpty ∧ (refreshToken store session outcome).1.auth_token = some t) := by
  constructor
  · cases h : jsTruthyStr store.auth_token <;> simp [refreshToken, h]
  · intro hch
    cases htok : jsTruthyStr store.auth_token with
    | false => exact (hch (by unfold refreshToken; rw [htok]; simp)).elim
    | true =>
      cases outcome with
      | threw => exact (hch (by unfold refreshToken; rw [htok]; simp)).elim
      | ok resp =>
        cases resp with
        | none => exact (hch (by unfold refreshToken; rw [htok]; simp)).elim
        | some r =>
          cases hacc : r.accessToken with
          | none =>
              exact (hch (by unfold refreshToken; rw [htok]; simp [hacc, jsTruthyStr])).elim
          | some t =>
            by_cases hemp : t.isEmpty
            · refine (hch ?_).elim
              unfold refreshToken
              rw [htok]
              simp [hacc, jsTruthyStr, hemp]
            · have hef : t.isEmpty = false := by
                cases h : t.isEmpty
                · rfl
                · exact absurd h hemp
              refine ⟨r, t, rfl, hacc, hemp, ?_⟩
              unfold refreshToken
              rw [htok]
              cases hu : r.user <;> simp [hacc, hu, jsTruthyStr, hef]

/-- C7 witness: the failure clause applied at a concrete store and session. -/
theorem refreshToken_atomic_witness :
    refreshToken { emptyStore with auth_token := some "tok" }
        (some cxAuthUser) RefreshOutcome.threw =
      ({ emptyStore with auth_token := some "tok" }, some cxAuthUser) :=
  (refreshToken_atomic { emptyStore with auth_token := some "tok" }
    (some cxAuthUser) RefreshOutcome.threw).1

/-! ## C8: optimistic session rehydration -/

/-- C8: when the persisted store holds both a token and a parsable user
record, initialization sets the session to that user with
`isAuthenticated := true`, and the session stays that way whatever the
outcome of the background token validation (success, HTTP failure, or a
thrown/timed-out fetch). -/
theorem rehydration_sets_authenticated
    (store : Store) (outcome : ValidationOutcome) (saved : User)
    (hs : store.mapguide_user = Stored.val saved)
    (ht : jsTruthyStr store.auth_token = true) :
    (initializeThenValidate store outcome).1.user =
        some { saved with isAuthenticated := true } ∧
    (initializeThenValidate store outcome).1.initialized = true := by
  have hinit : initializeAuth store =
      { store := store, user := some { saved with isAuthenticated := true },
        initialized := true } := by
    unfold initializeAuth
    rw [hs, ht]
    simp [storedTruthy]
  unfold initializeThenValidate
  rw [hs, ht, hinit]
  cases outcome <;> simp [validateTokenInBackground]

/-- C8 witness: rehydration from a concrete token-plus-user store, with the
background validation throwing. -/
theorem rehydration_sets_authenticated_witness :
    (initializeThenValidate
        { emptyStore with
          mapguide_user := Stored.val { cxAuthUser with isAuthenticated := false },
          auth_token := some "tok" }
        ValidationOutcome.threw).1.user =
      some { cxAuthUser with isAuthenticated := true } ∧
    (initializeThenValidate
        { emptyStore with
          mapguide_user := Stored.val { cxAuthUser with isAuthenticated := false },
          auth_token := some "tok" }
        ValidationOutcome.threw).1.initialized = true :=
  rehydration_sets_authenticated _ ValidationOutcome.threw
    { cxAuthUser with isAuthenticated := false } rfl (by decide)

/-! ## C9: reverse-geocoding fallback chain -/

/-- C9: once a device position is acquired, no reverse-geocoding provider
failure makes `getCurrentLocation` resolve with null: the result is always
`some`; if the MapTiler call throws or returns a non-ok response the
Nominatim fallback decides the result; and if the Nominatim call also
throws or returns non-ok, the call resolves with the raw coordinates and
the decimal coordinate string as address. -/
theorem geolocation_fallback_chain (lat lng : ℚ) (mt : MaptilerOutcome) (nm : NominatimOutcome) :
    (getCurrentLocation (PositionOutcome.ok lat lng) mt nm).1 ≠ none ∧
    ((mt = MaptilerOutcome.threw ∨ mt = MaptilerOutcome.notOk) →
      (getCurrentLocation (PositionOutcome.ok lat lng) mt nm).1 =
        some (nominatimFallback lat lng nm)) ∧
    ((mt = MaptilerOutcome.threw ∨ mt = MaptilerOutcome.notOk) →
      (nm = NominatimOutcome.threw ∨ nm = NominatimOutcome.notOk) →
      (getCurrentLocation (PositionOutcome.ok lat lng) mt nm).1 =
        some { latitude := lat, longitude := lng,
               address := some (coordString lat lng) }) := by
  refine ⟨?_, ?_, ?_⟩
  · cases h : maptilerLookup lat lng mt <;> simp [getCurrentLocation, h]
  · rintro (h | h) <;> subst h <;> simp [getCurrentLocation, maptilerLookup]
  · rintro (h | h) (h2 | h2) <;> subst h <;> subst h2 <;>
      simp [getCurrentLocation, maptilerLookup, nominatimFallback]

/-- C9 witness: the both-providers-fail clause at concrete coordinates,
yielding the decimal-formatted coordinate string. -/
theorem geolocation_fallback_chain_witness :
    (getCurrentLocation (PositionOutcome.ok 1 2) MaptilerOutcome.threw
        NominatimOutcome.notOk).1 =
      some { latitude := 1, longitude := 2, address := some (coordString 1 2) } :=
  (geolocation_fallback_chain 1 2 MaptilerOutcome.threw NominatimOutcome.notOk).2.2
    (Or.inl rfl) (Or.inr rfl)

/-! ## C10: tolerance of absent or unparsable persisted values -/

/-- The store whose `mapguide_user` key holds a non-JSON string. -/
def cxStoreCorrupt : Store :=
  { emptyStore with
    mapguide_user := Stored.corrupt,
    mapguide_local_routes := Stored.val [sampleRoute "1" 0] }

/-- C10 evidence: with an unparsable `mapguide_user` value the routes
persistence effect throws (its `JSON.parse` has no try/catch), and
`addRoute` rethrows a user-facing error from its outer catch — both let an
exception escape the operation's boundary instead of treating the value as
empty. `loadRoutes` and session initialization, by contrast, swallow the
same corruption. -/
theorem corrupt_user_escapes_boundary :
    persistRoutes true [sampleRoute "1" 0] cxStoreCorrupt = Except.error () ∧
    addRouteFull cxStoreCorrupt none 1 "iso" (sampleRoute "1" 0)
        { routes := [], currentRoute := none } =
      Except.error "Failed to save route. Please try again." ∧
    (loadRoutes (FetchOutcome.ok none) cxStoreCorrupt
        { routes := [], currentRoute := none }).routesLoaded = true ∧
    (initializeAuth cxStoreCorrupt).initialized = true := by decide
